import Mathlib

/-!
Shallow embedding of the real-time event distribution subsystem of
sliver-gui: the notification store (`src/frontend/src/store/notificationStore.ts`),
the message router and the websocket connection manager (the `useWebSocket`
hook). Pure state-transformer semantics: each store operation is a function
from the store state (and, where the source synthesizes fresh ids and
timestamps, an explicit freshness argument) to the next state together with
the externally observable effects.
-/

namespace SliverGui

/-! The notification store data model (notificationStore.ts). -/

/-- The `type` union of the `Notification` interface:
`'session' | 'beacon' | 'listener' | 'info' | 'warning' | 'error'`. -/
inductive NotifType
  | session
  | beacon
  | listener
  | info
  | warning
  | error
deriving DecidableEq, Repr

/-- `NotificationSettings`. -/
structure NotificationSettings where
  soundEnabled : Bool
  desktopEnabled : Bool
  showNewSessions : Bool
  showNewBeacons : Bool
  showListenerEvents : Bool
deriving DecidableEq, Repr

/-- A stored `Notification` record. `timestamp` is a `Date`, modelled as an
abstract instant; `data` is an opaque payload. -/
structure Notification where
  id : String
  type : NotifType
  title : String
  message : String
  timestamp : Nat
  read : Bool
  data : Option String
deriving DecidableEq, Repr

/-- The argument of `addNotification`:
`Omit<Notification, 'id' | 'timestamp' | 'read'>`. -/
structure Candidate where
  type : NotifType
  title : String
  message : String
  data : Option String
deriving DecidableEq, Repr

/-- The id and timestamp the source synthesizes inside `addNotification`
(`Date.now()` and the random suffix), passed explicitly. -/
structure FreshMeta where
  id : String
  timestamp : Nat
deriving DecidableEq, Repr

/-- The mutable slice of the zustand store. -/
structure NotificationState where
  notifications : List Notification
  settings : NotificationSettings
  unreadCount : Nat
deriving DecidableEq, Repr

/-- Side effects an `addNotification` call may trigger. -/
structure AddEffects where
  playedSound : Bool
  showedDesktop : Bool
deriving DecidableEq, Repr

def noAddEffects : AddEffects := { playedSound := false, showedDesktop := false }

/-- The `newNotification` record built at the top of `addNotification`. -/
def mkNotification (c : Candidate) (f : FreshMeta) : Notification :=
  { id := f.id
    type := c.type
    title := c.title
    message := c.message
    timestamp := f.timestamp
    read := false
    data := c.data }

/-- `addNotification`: three early returns gate the `session`/`beacon`/`listener`
categories on the admission settings; otherwise the new record is prepended,
the list is truncated with `.slice(0, 100)`, `unreadCount` is incremented, and
sound/desktop effects fire per `soundEnabled`/`desktopEnabled`. -/
def addNotification (s : NotificationState) (c : Candidate) (f : FreshMeta) :
    NotificationState × AddEffects :=
  let newNotification := mkNotification c f
  if c.type == .session && !s.settings.showNewSessions then (s, noAddEffects)
  else if c.type == .beacon && !s.settings.showNewBeacons then (s, noAddEffects)
  else if c.type == .listener && !s.settings.showListenerEvents then (s, noAddEffects)
  else
    ({ s with
        notifications := (newNotification :: s.notifications).take 100
        unreadCount := s.unreadCount + 1 },
     { playedSound := s.settings.soundEnabled
       showedDesktop := s.settings.desktopEnabled })

/-- `markAsRead(id)`: find the record; if present and unread, map the list
flipping `read` on matching ids and decrement `unreadCount`
(`Math.max(0, unreadCount - 1)` is truncated subtraction on `Nat`). -/
def markAsRead (s : NotificationState) (id : String) : NotificationState :=
  match s.notifications.find? (fun n => n.id == id) with
  | some n =>
      if !n.read then
        { s with
            notifications :=
              s.notifications.map (fun m =>
                if m.id == id then { m with read := true } else m)
            unreadCount := s.unreadCount - 1 }
      else s
  | none => s

/-- `markAllAsRead()`. -/
def markAllAsRead (s : NotificationState) : NotificationState :=
  { s with
      notifications := s.notifications.map (fun n => { n with read := true })
      unreadCount := 0 }

/-- `clearNotification(id)`: remove matching records; decrement `unreadCount`
(again `Math.max(0, · - 1)`) only when the found record was unread. -/
def clearNotification (s : NotificationState) (id : String) : NotificationState :=
  match s.notifications.find? (fun n => n.id == id) with
  | some n =>
      { s with
          notifications := s.notifications.filter (fun m => !(m.id == id))
          unreadCount := if !n.read then s.unreadCount - 1 else s.unreadCount }
  | none =>
      { s with
          notifications := s.notifications.filter (fun m => !(m.id == id))
          unreadCount := s.unreadCount }

/-- `clearAll()`. -/
def clearAll (s : NotificationState) : NotificationState :=
  { s with notifications := [], unreadCount := 0 }

/-- One store mutation, for reasoning about operation sequences. -/
inductive StoreOp
  | add (c : Candidate) (f : FreshMeta)
  | markRead (id : String)
  | markAll
  | clear (id : String)
  | clearEverything
deriving DecidableEq, Repr

def applyOp (s : NotificationState) : StoreOp → NotificationState
  | .add c f => (addNotification s c f).1
  | .markRead id => markAsRead s id
  | .markAll => markAllAsRead s
  | .clear id => clearNotification s id
  | .clearEverything => clearAll s

def applyOps (s : NotificationState) (ops : List StoreOp) : NotificationState :=
  ops.foldl applyOp s

/-- The store's initial state (settings defaults from the source). -/
def initialStoreState : NotificationState :=
  { notifications := []
    settings :=
      { soundEnabled := true
        desktopEnabled := false
        showNewSessions := true
        showNewBeacons := true
        showListenerEvents := true }
    unreadCount := 0 }

/-- The number of records with `read = false` in the list. -/
def countUnread (s : NotificationState) : Nat :=
  (s.notifications.filter (fun n => !n.read)).length

/-! The message router (`handleMessage` in the `useWebSocket` hook). -/

/-- The `variant` strings used by toast payloads. -/
inductive Variant
  | default
  | destructive
deriving DecidableEq, Repr

/-- The discriminant of a decoded `WebSocketMessage`, with an escape case for
any other string. -/
inductive MsgType
  | session_connected
  | session_disconnected
  | beacon_checkin
  | beacon_disconnected
  | task_completed
  | notification
  | unknown (s : String)
deriving DecidableEq, Repr

/-- The fields of `message.data` the handlers read. The source types `data`
as `any`; each case reads the subset below, with possibly-absent fields as
`Option`. -/
structure MsgData where
  id : String
  name : Option String
  remote_address : Option String
  is_new : Bool
  beacon_id : String
  beacon_name : String
  task_type : String
  title : String
  message : String
  variant : Option Variant
deriving DecidableEq, Repr

/-- A decoded `WebSocketMessage`. -/
structure WebSocketMessage where
  type : MsgType
  data : MsgData
  timestamp : String
deriving DecidableEq, Repr

/-- An inbound text frame: either `JSON.parse` throws on it, or it decodes to
a message. -/
inductive Frame
  | malformed (raw : String)
  | decoded (msg : WebSocketMessage)
deriving DecidableEq, Repr

/-- JS template interpolation of a possibly-undefined string. -/
def jsStr : Option String → String
  | some s => s
  | none => "undefined"

/-- JS `x || y` for a possibly-undefined string (empty string is falsy). -/
def jsOr (x : Option String) (y : String) : String :=
  match x with
  | some s => if s == "" then y else s
  | none => y

/-- A `toast({...})` call. -/
structure Toast where
  title : String
  description : String
  variant : Variant
deriving DecidableEq, Repr

/-- The observable effects of routing one frame: `queryClient.invalidateQueries`
calls (their query keys, in order), `toast` calls, `addNotification` calls
(the candidate passed to the store), and the `setLastMessage` update. -/
structure RouterEffects where
  invalidations : List (List String)
  toasts : List Toast
  notifications : List Candidate
  lastMessage : Option WebSocketMessage
deriving DecidableEq, Repr

def emptyRouterEffects : RouterEffects :=
  { invalidations := [], toasts := [], notifications := [], lastMessage := none }

/-- `message.data.name || message.data.id`. -/
def nameOrId (d : MsgData) : String := jsOr d.name d.id

/-- The body of the `try` block in `handleMessage`: `setLastMessage`, then the
`switch` on `message.type`. -/
def handleDecoded (message : WebSocketMessage) : RouterEffects :=
  let d := message.data
  match message.type with
  | .session_connected =>
      { invalidations := [["sessions"], ["dashboard-stats"]]
        toasts := [{ title := "New Session Connected"
                     description := nameOrId d ++ " connected from " ++ jsStr d.remote_address
                     variant := .default }]
        notifications := [{ type := .session
                            title := "New Session"
                            message := nameOrId d ++ " connected from " ++ jsStr d.remote_address
                            data := some d.id }]
        lastMessage := some message }
  | .session_disconnected =>
      { invalidations := [["sessions"], ["dashboard-stats"]]
        toasts := [{ title := "Session Disconnected"
                     description := nameOrId d ++ " has disconnected"
                     variant := .destructive }]
        notifications := [{ type := .warning
                            title := "Session Disconnected"
                            message := nameOrId d ++ " has disconnected"
                            data := some d.id }]
        lastMessage := some message }
  | .beacon_checkin =>
      { invalidations := [["beacons"], ["dashboard-stats"]]
        toasts :=
          if d.is_new then
            [{ title := "New Beacon"
               description := nameOrId d ++ " first check-in"
               variant := .default }]
          else []
        notifications :=
          if d.is_new then
            [{ type := .beacon
               title := "New Beacon"
               message := nameOrId d ++ " first check-in from " ++ jsOr d.remote_address "unknown"
               data := some d.id }]
          else []
        lastMessage := some message }
  | .beacon_disconnected =>
      { invalidations := [["beacons"], ["dashboard-stats"]]
        toasts := [{ title := "Beacon Disconnected"
                     description := "Beacon " ++ nameOrId d ++ " missed check-in"
                     variant := .destructive }]
        notifications := [{ type := .warning
                            title := "Beacon Missed Check-in"
                            message := "Beacon " ++ nameOrId d ++ " has not checked in"
                            data := some d.id }]
        lastMessage := some message }
  | .task_completed =>
      { invalidations := [["beacon-tasks", d.beacon_id]]
        toasts := [{ title := "Task Completed"
                     description := "Task " ++ d.task_type ++ " completed for beacon " ++ d.beacon_name
                     variant := .default }]
        notifications := [{ type := .info
                            title := "Task Completed"
                            message := "Task " ++ d.task_type ++ " completed for " ++ d.beacon_name
                            data := some d.id }]
        lastMessage := some message }
  | .notification =>
      { invalidations := []
        toasts := [{ title := d.title
                     description := d.message
                     variant := (d.variant).getD .default }]
        notifications := [{ type := if d.variant == some .destructive then .error else .info
                            title := d.title
                            message := d.message
                            data := some d.id }]
        lastMessage := some message }
  | .unknown _ =>
      { invalidations := [], toasts := [], notifications := [], lastMessage := some message }

/-- The `try` body viewed as a fallible computation: `JSON.parse` throws on a
malformed frame. -/
def tryHandle (f : Frame) : Except String RouterEffects :=
  match f with
  | .malformed raw => .error ("Failed to parse WebSocket message: " ++ raw)
  | .decoded msg => .ok (handleDecoded msg)

/-- `handleMessage`: the `catch` swallows any parse exception (logging it), so
the router is a total function and nothing propagates to the transport. -/
def handleMessage (f : Frame) : RouterEffects :=
  match tryHandle f with
  | .ok eff => eff
  | .error _ => emptyRouterEffects

/-! The connection manager (`connect` / `disconnect` / socket events in the
`useWebSocket` hook) -/

/-- `WebSocket.readyState` constants. -/
inductive ReadyState
  | CONNECTING
  | OPEN
  | CLOSING
  | CLOSED
deriving DecidableEq, Repr

/-- A created `WebSocket` object. The hook attaches its four handlers
immediately after construction, so `handlersAttached` is true for every
socket `connect` creates. -/
structure Socket where
  id : Nat
  state : ReadyState
  handlersAttached : Bool
deriving DecidableEq, Repr

/-- The options of the hook (defaults: 5 attempts, 3000 ms interval). -/
structure WSConfig where
  reconnectAttempts : Nat
  reconnectInterval : Nat
deriving DecidableEq, Repr

def defaultWSConfig : WSConfig := { reconnectAttempts := 5, reconnectInterval := 3000 }

/-- The hook's mutable state: every socket created so far (with its current
`readyState`), the ref `wsRef` (by socket id), `reconnectCountRef`,
`reconnectTimeoutRef` (the delay of the pending timer, when one is pending),
`isConnected`, and the token in localStorage. `nextId` numbers the sockets. -/
structure WSState where
  sockets : List Socket
  wsRef : Option Nat
  reconnectCount : Nat
  pendingTimer : Option Nat
  isConnected : Bool
  token : Option String
  nextId : Nat
deriving DecidableEq, Repr

/-- The socket `wsRef.current` points at, if any. -/
def currentSocket (s : WSState) : Option Socket :=
  match s.wsRef with
  | some i => s.sockets.find? (fun sk => sk.id == i)
  | none => none

/-- Sockets that are live on the wire (connecting or open, not yet closed). -/
def liveSockets (s : WSState) : List Socket :=
  s.sockets.filter (fun sk => sk.state == .CONNECTING || sk.state == .OPEN)

/-- `connect()`: early return when `wsRef.current?.readyState === WebSocket.OPEN`;
early return when no token is in storage; otherwise construct a new socket
(readyState `CONNECTING`), attach handlers, and overwrite `wsRef`. Note the
previous socket is neither closed nor detached. -/
def connect (s : WSState) : WSState :=
  if (currentSocket s).any (fun sk => sk.state == .OPEN) then s
  else
    match s.token with
    | none => s
    | some _ =>
        { s with
            sockets := s.sockets ++ [{ id := s.nextId, state := .CONNECTING, handlersAttached := true }]
            wsRef := some s.nextId
            nextId := s.nextId + 1 }

/-- Update the recorded `readyState` of socket `i`. -/
def setSocketState (sockets : List Socket) (i : Nat) (st : ReadyState) : List Socket :=
  sockets.map (fun sk => if sk.id == i then { sk with state := st } else sk)

/-- The `ws.onopen` handler firing on socket `i` (the transport has moved it
to `OPEN`): `setIsConnected(true)` and reset the retry counter. -/
def onopenEvent (s : WSState) (i : Nat) : WSState :=
  { s with
      sockets := setSocketState s.sockets i .OPEN
      isConnected := true
      reconnectCount := 0 }

/-- The `ws.onclose` handler firing on socket `i` with close code `code`:
`setIsConnected(false)`, `wsRef.current = null`, then — when the code is not
1000 and the retry counter is below the configured maximum — increment the
counter and schedule one reconnect timer at the fixed interval. Returns the
new state together with the number of timers this event scheduled. -/
def oncloseEvent (cfg : WSConfig) (s : WSState) (i : Nat) (code : Nat) :
    WSState × Nat :=
  let s1 : WSState :=
    { s with
        sockets := setSocketState s.sockets i .CLOSED
        isConnected := false
        wsRef := none }
  if code != 1000 && decide (s.reconnectCount < cfg.reconnectAttempts) then
    ({ s1 with
        reconnectCount := s.reconnectCount + 1
        pendingTimer := some cfg.reconnectInterval }, 1)
  else (s1, 0)

/-- A `socket.close(code, reason)` call issued by the hook. -/
structure CloseCall where
  code : Nat
  reason : String
deriving DecidableEq, Repr

/-- `disconnect()`: clear any pending reconnect timer; if a socket is
referenced, call `close(1000, 'User initiated disconnect')` on it (moving it
to `CLOSING`) and null the ref; `setIsConnected(false)`. Returns the close
calls issued. -/
def disconnect (s : WSState) : WSState × List CloseCall :=
  match s.wsRef with
  | some i =>
      ({ s with
          pendingTimer := none
          sockets := setSocketState s.sockets i .CLOSING
          wsRef := none
          isConnected := false },
       [{ code := 1000, reason := "User initiated disconnect" }])
  | none =>
      ({ s with pendingTimer := none, isConnected := false }, [])

/-- The pending reconnect timer elapsing: when one is pending it fires and
invokes `connect()`; otherwise nothing happens. Returns the number of
`connect()` calls the elapse triggered. -/
def timerFire (s : WSState) : WSState × Nat :=
  match s.pendingTimer with
  | some _ => (connect { s with pendingTimer := none }, 1)
  | none => (s, 0)

/-- A fresh hook state holding a token (the state on mount after login). -/
def initialWSState : WSState :=
  { sockets := []
    wsRef := none
    reconnectCount := 0
    pendingTimer := none
    isConnected := false
    token := some "token"
    nextId := 0 }

/-! Derived predicates and concrete fixtures. -/

/-- The complement of the three early returns of `addNotification`: true when
the candidate's category passes its admission setting. -/
def admitsCandidate (st : NotificationSettings) (t : NotifType) : Bool :=
  !(t == .session && !st.showNewSessions) &&
  !(t == .beacon && !st.showNewBeacons) &&
  !(t == .listener && !st.showListenerEvents)

/-- An `info` candidate used in concrete runs. -/
def infoCand : Candidate := { type := .info, title := "t", message := "m", data := none }

/-- A `session` candidate used in concrete runs. -/
def sessionCand : Candidate := { type := .session, title := "t", message := "m", data := none }

/-- The default store state with `showNewSessions` turned off. -/
def sessionOffState : NotificationState :=
  { initialStoreState with
      settings := { initialStoreState.settings with showNewSessions := false } }

/-- 101 consecutive `addNotification` calls (all of category `info`, hence all
admitted) starting from the empty store. -/
def c1AddOps : List StoreOp :=
  (List.range 101).map (fun i => .add infoCand { id := toString i, timestamp := i })

/-- The store state after the 101 additions. -/
def c1Run : NotificationState := applyOps initialStoreState c1AddOps

/-- A hook state whose referenced socket is `OPEN` (the state right after a
successful connect and its `onopen`). -/
def openWSState : WSState :=
  { sockets := [{ id := 0, state := .OPEN, handlersAttached := true }]
    wsRef := some 0
    reconnectCount := 0
    pendingTimer := none
    isConnected := true
    token := some "token"
    nextId := 1 }

/-- A hook state with a reconnect timer pending (the state right after a
non-normal close scheduled its retry). -/
def pendingWSState : WSState :=
  { sockets := [{ id := 0, state := .CLOSED, handlersAttached := true }]
    wsRef := none
    reconnectCount := 1
    pendingTimer := some 3000
    isConnected := false
    token := some "token"
    nextId := 1 }

/-- A single already-read record. -/
def readNotif : Notification :=
  { id := "a", type := .info, title := "t", message := "m", timestamp := 1
    read := true, data := none }

/-- A store holding exactly that record. -/
def readOneState : NotificationState :=
  { notifications := [readNotif]
    settings := initialStoreState.settings
    unreadCount := 0 }

/-! Theorems settling the claims. -/

/-- An admitted `addNotification` prepends the fresh record, truncates to 100,
increments `unreadCount`, and fires the configured effects. -/
lemma addNotification_admitted (s : NotificationState) (c : Candidate) (f : FreshMeta)
    (h : admitsCandidate s.settings c.type = true) :
    addNotification s c f =
      ({ s with
          notifications := (mkNotification c f :: s.notifications).take 100
          unreadCount := s.unreadCount + 1 },
       { playedSound := s.settings.soundEnabled
         showedDesktop := s.settings.desktopEnabled }) := by
  cases hA : (c.type == .session && !s.settings.showNewSessions) with
  | true => simp [admitsCandidate, hA] at h
  | false =>
  cases hB : (c.type == .beacon && !s.settings.showNewBeacons) with
  | true => simp [admitsCandidate, hB] at h
  | false =>
  cases hC : (c.type == .listener && !s.settings.showListenerEvents) with
  | true => simp [admitsCandidate, hC] at h
  | false => simp [addNotification, hA, hB, hC]

/-- One `addNotification` step keeps the list within the 100-record capacity. -/
lemma addNotification_length_le (s : NotificationState) (c : Candidate) (f : FreshMeta)
    (h : s.notifications.length ≤ 100) :
    (addNotification s c f).1.notifications.length ≤ 100 := by
  unfold addNotification
  split
  · exact h
  · split
    · exact h
    · split
      · exact h
      · exact List.length_take_le 100 _

/-- Any sequence of additions keeps the list within capacity. -/
lemma applyAdds_length_le (adds : List (Candidate × FreshMeta)) :
    ∀ s : NotificationState, s.notifications.length ≤ 100 →
      (applyOps s (adds.map (fun p => StoreOp.add p.1 p.2))).notifications.length ≤ 100 := by
  induction adds with
  | nil => intro s h; simpa [applyOps] using h
  | cons p rest ih =>
      intro s h
      simpa [applyOps, applyOp] using
        ih (addNotification s p.1 p.2).1 (addNotification_length_le s p.1 p.2 h)

/-- C8: `addNotification` with a candidate of category `session`, `beacon`, or
`listener` whose admission setting is off is a complete no-op: the state is
unchanged and no sound or desktop effect fires. -/
theorem C8_disabled_category_noop (s : NotificationState) (c : Candidate) (f : FreshMeta)
    (h : (c.type = .session ∧ s.settings.showNewSessions = false)
       ∨ (c.type = .beacon ∧ s.settings.showNewBeacons = false)
       ∨ (c.type = .listener ∧ s.settings.showListenerEvents = false)) :
    addNotification s c f = (s, noAddEffects) := by
  rcases h with ⟨h1, h2⟩ | ⟨h1, h2⟩ | ⟨h1, h2⟩ <;> simp [addNotification, h1, h2]

/-- Witness for C8: a concrete `session` candidate against a store with
`showNewSessions = false`. -/
theorem C8_disabled_category_noop_witness :
    (sessionCand.type = .session ∧ sessionOffState.settings.showNewSessions = false)
  ∧ addNotification sessionOffState sessionCand { id := "n1", timestamp := 5 }
      = (sessionOffState, noAddEffects) :=
  ⟨⟨rfl, rfl⟩,
   C8_disabled_category_noop sessionOffState sessionCand { id := "n1", timestamp := 5 }
     (Or.inl ⟨rfl, rfl⟩)⟩

/-- C10: a candidate of category `info`, `warning`, or `error` is admitted
unconditionally — no admission setting gates it — so the record is prepended
(and the list truncated to 100) and `unreadCount` incremented, whatever the
settings hold. -/
theorem C10_plain_categories_admitted (s : NotificationState) (c : Candidate) (f : FreshMeta)
    (h : c.type = .info ∨ c.type = .warning ∨ c.type = .error) :
    addNotification s c f =
      ({ s with
          notifications := (mkNotification c f :: s.notifications).take 100
          unreadCount := s.unreadCount + 1 },
       { playedSound := s.settings.soundEnabled
         showedDesktop := s.settings.desktopEnabled }) := by
  rcases h with h | h | h <;> simp [addNotification, h]

/-- Witness for C10: a concrete `info` candidate against a store with every
admission setting off. -/
theorem C10_plain_categories_admitted_witness :
    (infoCand.type = .info ∨ infoCand.type = .warning ∨ infoCand.type = .error)
  ∧ addNotification
      { initialStoreState with
          settings :=
            { soundEnabled := true, desktopEnabled := false
              showNewSessions := false, showNewBeacons := false, showListenerEvents := false } }
      infoCand { id := "n1", timestamp := 5 }
      = ({ initialStoreState with
            settings :=
              { soundEnabled := true, desktopEnabled := false
                showNewSessions := false, showNewBeacons := false, showListenerEvents := false }
            notifications :=
              [(mkNotification infoCand { id := "n1", timestamp := 5 })]
            unreadCount := 1 },
         { playedSound := true, showedDesktop := false }) :=
  ⟨Or.inl rfl,
   C10_plain_categories_admitted
     { initialStoreState with
         settings :=
           { soundEnabled := true, desktopEnabled := false
             showNewSessions := false, showNewBeacons := false, showListenerEvents := false } }
     infoCand { id := "n1", timestamp := 5 } (Or.inl rfl)⟩

/-- C3: routing a `beacon_checkin` frame invalidates exactly the `beacons` and
`dashboard-stats` cache keys for every payload; it emits one notification of
category `beacon` (and one toast) precisely when `data.is_new` holds, and no
notification or toast otherwise. -/
theorem C3_beacon_checkin_routing (d : MsgData) (ts : String) :
    (handleMessage (.decoded { type := .beacon_checkin, data := d, timestamp := ts })).invalidations
        = [["beacons"], ["dashboard-stats"]]
  ∧ (handleMessage (.decoded { type := .beacon_checkin, data := d, timestamp := ts })).notifications.map
        Candidate.type = (if d.is_new then [NotifType.beacon] else [])
  ∧ (handleMessage (.decoded { type := .beacon_checkin, data := d, timestamp := ts })).toasts.length
        = (if d.is_new then 1 else 0) := by
  cases h : d.is_new <;> simp [handleMessage, tryHandle, handleDecoded, h]

/-- C4: a malformed frame (where `JSON.parse` throws) and a decoded frame with
an unknown discriminant both produce zero invalidations, zero notifications
and zero toasts, and the router returns normally — the `catch` keeps any parse
exception away from the transport layer. -/
theorem C4_unroutable_frames_inert (raw u : String) (d : MsgData) (ts : String) :
    handleMessage (.malformed raw) = emptyRouterEffects
  ∧ (handleMessage (.decoded { type := .unknown u, data := d, timestamp := ts })).invalidations = []
  ∧ (handleMessage (.decoded { type := .unknown u, data := d, timestamp := ts })).toasts = []
  ∧ (handleMessage (.decoded { type := .unknown u, data := d, timestamp := ts })).notifications = [] :=
  ⟨rfl, rfl, rfl, rfl⟩

/-- C5: on a close event with a non-normal code while `reconnectCount` is
below the configured maximum, exactly one reconnect timer is scheduled at the
fixed interval and the counter increments by exactly 1; with the counter at or
above the maximum, or with the normal-closure code 1000, no timer is
scheduled. -/
theorem C5_close_reconnect_policy (cfg : WSConfig) (s : WSState) (i code : Nat) :
    (code ≠ 1000 → s.reconnectCount < cfg.reconnectAttempts →
        (oncloseEvent cfg s i code).2 = 1
      ∧ (oncloseEvent cfg s i code).1.reconnectCount = s.reconnectCount + 1
      ∧ (oncloseEvent cfg s i code).1.pendingTimer = some cfg.reconnectInterval)
  ∧ (cfg.reconnectAttempts ≤ s.reconnectCount →
        (oncloseEvent cfg s i code).2 = 0
      ∧ (oncloseEvent cfg s i code).1.pendingTimer = s.pendingTimer)
  ∧ (code = 1000 →
        (oncloseEvent cfg s i code).2 = 0
      ∧ (oncloseEvent cfg s i code).1.pendingTimer = s.pendingTimer) := by
  refine ⟨fun h1 h2 => ?_, fun h => ?_, fun h => ?_⟩
  · have hb : (code != 1000 && decide (s.reconnectCount < cfg.reconnectAttempts)) = true := by
      simp [h1, h2]
    simp [oncloseEvent, hb]
  · have hb : (code != 1000 && decide (s.reconnectCount < cfg.reconnectAttempts)) = false := by
      simp
      intro
      omega
    simp [oncloseEvent, hb]
  · subst h
    simp [oncloseEvent]

/-- Witness for C5: the default configuration, a fresh state, and an abnormal
close code 1006. -/
theorem C5_close_reconnect_policy_witness :
    (1006 ≠ 1000)
  ∧ initialWSState.reconnectCount < defaultWSConfig.reconnectAttempts
  ∧ ((oncloseEvent defaultWSConfig initialWSState 0 1006).2 = 1
      ∧ (oncloseEvent defaultWSConfig initialWSState 0 1006).1.reconnectCount
          = initialWSState.reconnectCount + 1
      ∧ (oncloseEvent defaultWSConfig initialWSState 0 1006).1.pendingTimer
          = some defaultWSConfig.reconnectInterval) :=
  ⟨by decide, by decide,
   (C5_close_reconnect_policy defaultWSConfig initialWSState 0 1006).1 (by decide) (by decide)⟩

/-- Counterexample for C6: from the reachable state right after one `connect()`
(whose socket is still `CONNECTING`), a second `connect()` is not a no-op: it
creates a second socket, and both sockets are simultaneously live with
handlers attached. -/
theorem C6_two_live_sockets :
    liveSockets (connect (connect initialWSState)) =
      [{ id := 0, state := .CONNECTING, handlersAttached := true },
       { id := 1, state := .CONNECTING, handlersAttached := true }] := by decide

/-- C6 amended: `connect()` is a no-op only when the referenced socket's
`readyState` is `OPEN`; repeated `connect()` calls while the socket is `OPEN`
leave the state (and hence the set of live sockets) unchanged. While a socket
is still `CONNECTING`, however, `connect()` creates a second live socket. -/
theorem C6_connect_noop_when_open (s : WSState) (sk : Socket)
    (h1 : currentSocket s = some sk) (h2 : sk.state = .OPEN) :
    connect s = s := by
  unfold connect
  simp [h1, h2]

/-- Witness for C6 amended: a concrete state whose socket is `OPEN`. -/
theorem C6_connect_noop_when_open_witness :
    currentSocket openWSState = some { id := 0, state := .OPEN, handlersAttached := true }
  ∧ connect openWSState = openWSState :=
  ⟨by decide,
   C6_connect_noop_when_open openWSState { id := 0, state := .OPEN, handlersAttached := true }
     (by decide) rfl⟩

/-- C7: `disconnect()` clears any pending reconnect timer (so the elapse of
the originally scheduled delay triggers zero `connect()` calls), issues
exactly one `close(1000, 'User initiated disconnect')` call when a socket is
referenced, and sets `isConnected` to false; and it is the only path that
prevents auto-reconnect: neither `connect()` nor a close event ever clears a
pending timer. -/
theorem C7_disconnect_cancels_reconnect (cfg : WSConfig) (s : WSState) :
    (disconnect s).1.pendingTimer = none
  ∧ (disconnect s).1.isConnected = false
  ∧ ((disconnect s).2 =
      match s.wsRef with
      | some _ => [{ code := 1000, reason := "User initiated disconnect" }]
      | none => [])
  ∧ (timerFire (disconnect s).1).2 = 0
  ∧ (connect s).pendingTimer = s.pendingTimer
  ∧ (∀ i code, s.pendingTimer ≠ none →
      (oncloseEvent cfg s i code).1.pendingTimer ≠ none) := by
  refine ⟨?_, ?_, ?_, ?_, ?_, ?_⟩
  · cases h : s.wsRef <;> simp [disconnect, h]
  · cases h : s.wsRef <;> simp [disconnect, h]
  · cases h : s.wsRef <;> simp [disconnect, h]
  · cases h : s.wsRef <;> simp [disconnect, timerFire, h]
  · unfold connect
    split
    · rfl
    · cases s.token <;> simp
  · intro i code hp
    unfold oncloseEvent
    split <;> simp [hp]

/-- Witness for C7: a concrete state with a pending timer; its only
hypothesis (the inner one, that a timer is pending) discharged there. -/
theorem C7_disconnect_cancels_reconnect_witness :
    pendingWSState.pendingTimer ≠ none
  ∧ (oncloseEvent defaultWSConfig pendingWSState 0 1006).1.pendingTimer ≠ none :=
  ⟨by decide,
   (C7_disconnect_cancels_reconnect defaultWSConfig pendingWSState).2.2.2.2.2 0 1006 (by decide)⟩

/-- C2: starting from any state within the 100-record capacity (the initial
list is empty), any sequence of `addNotification` calls keeps the list within
capacity; and every admitted addition makes the list exactly the new record
prepended to the previous list, truncated to 100 — most-recent-first, the
records beyond the cap (the oldest) dropped. -/
theorem C2_capacity_bound (s : NotificationState) (adds : List (Candidate × FreshMeta))
    (h : s.notifications.length ≤ 100) :
    (applyOps s (adds.map (fun p => StoreOp.add p.1 p.2))).notifications.length ≤ 100
  ∧ (∀ c f, admitsCandidate s.settings c.type = true →
      (addNotification s c f).1.notifications
        = (mkNotification c f :: s.notifications).take 100) := by
  refine ⟨applyAdds_length_le adds s h, fun c f hc => ?_⟩
  rw [addNotification_admitted s c f hc]

/-- Witness for C2: one admitted addition to the empty store. -/
theorem C2_capacity_bound_witness :
    initialStoreState.notifications.length ≤ 100
  ∧ admitsCandidate initialStoreState.settings infoCand.type = true
  ∧ (applyOps initialStoreState
        ([(infoCand, ({ id := "a", timestamp := 1 } : FreshMeta))].map
          (fun p => StoreOp.add p.1 p.2))).notifications.length ≤ 100
  ∧ (addNotification initialStoreState infoCand { id := "a", timestamp := 1 }).1.notifications
      = (mkNotification infoCand { id := "a", timestamp := 1 }
          :: initialStoreState.notifications).take 100 :=
  ⟨by decide, by decide,
   (C2_capacity_bound initialStoreState
      [(infoCand, ({ id := "a", timestamp := 1 } : FreshMeta))] (by decide)).1,
   (C2_capacity_bound initialStoreState
      [(infoCand, ({ id := "a", timestamp := 1 } : FreshMeta))] (by decide)).2
     infoCand { id := "a", timestamp := 1 } (by decide)⟩

/-- `markAsRead` on an id that is not in the list is a no-op. -/
lemma markAsRead_of_none (s : NotificationState) (id : String)
    (h : s.notifications.find? (fun m => m.id == id) = none) :
    markAsRead s id = s := by
  simp [markAsRead, h]

/-- `markAsRead` on an id whose record is already read is a no-op. -/
lemma markAsRead_of_read (s : NotificationState) (id : String) (n : Notification)
    (h : s.notifications.find? (fun m => m.id == id) = some n) (hr : n.read = true) :
    markAsRead s id = s := by
  simp [markAsRead, h, hr]

/-- `markAsRead` on an id whose record is unread flips matching records and
decrements `unreadCount`. -/
lemma markAsRead_of_unread (s : NotificationState) (id : String) (n : Notification)
    (h : s.notifications.find? (fun m => m.id == id) = some n) (hr : n.read = false) :
    markAsRead s id =
      { s with
          notifications :=
            s.notifications.map (fun m =>
              if m.id == id then { m with read := true } else m)
          unreadCount := s.unreadCount - 1 } := by
  simp [markAsRead, h, hr]

/-- Marking a found record read commutes with `find?`: on the mapped list the
first match is the found record with `read` flipped. -/
lemma find?_map_markRead (l : List Notification) (id : String) (n : Notification)
    (h : l.find? (fun m => m.id == id) = some n) :
    (l.map (fun m => if m.id == id then { m with read := true } else m)).find?
        (fun m => m.id == id) = some { n with read := true } := by
  induction l with
  | nil => simp at h
  | cons a t ih =>
      cases ha : (a.id == id) with
      | true =>
          have ha' : a.id = id := by simpa using ha
          simp only [List.find?_cons, ha] at h
          injection h with h
          subst h
          simp [List.find?_cons, ha, ha']
      | false =>
          have hneg : ¬ ((a.id == id) = true) := by simp [ha]
          simp only [List.find?_cons, ha] at h
          simp only [List.map_cons]
          rw [if_neg hneg]
          simp only [List.find?_cons, ha]
          exact ih h

/-- C9: `markAsRead` is idempotent — the second call is a no-op, so two calls
change `unreadCount` by at most 1 in total — and a call on an already-read or
absent id leaves the whole state unchanged. -/
theorem C9_markAsRead_idempotent (s : NotificationState) (id : String) :
    markAsRead (markAsRead s id) id = markAsRead s id
  ∧ (markAsRead (markAsRead s id) id).unreadCount ≤ s.unreadCount
  ∧ s.unreadCount ≤ (markAsRead (markAsRead s id) id).unreadCount + 1
  ∧ (∀ n, s.notifications.find? (fun m => m.id == id) = some n → n.read = true →
        markAsRead s id = s)
  ∧ (s.notifications.find? (fun m => m.id == id) = none → markAsRead s id = s) := by
  have hidem : markAsRead (markAsRead s id) id = markAsRead s id := by
    cases h : s.notifications.find? (fun m => m.id == id) with
    | none => rw [markAsRead_of_none s id h, markAsRead_of_none s id h]
    | some n =>
        by_cases hr : n.read = true
        · rw [markAsRead_of_read s id n h hr, markAsRead_of_read s id n h hr]
        · have hr' : n.read = false := by simpa using hr
          rw [markAsRead_of_unread s id n h hr']
          exact markAsRead_of_read _ id { n with read := true }
            (find?_map_markRead s.notifications id n h) rfl
  have hle : (markAsRead s id).unreadCount ≤ s.unreadCount := by
    cases h : s.notifications.find? (fun m => m.id == id) with
    | none => rw [markAsRead_of_none s id h]
    | some n =>
        by_cases hr : n.read = true
        · rw [markAsRead_of_read s id n h hr]
        · have hr' : n.read = false := by simpa using hr
          rw [markAsRead_of_unread s id n h hr']
          exact Nat.sub_le _ _
  have hge : s.unreadCount ≤ (markAsRead s id).unreadCount + 1 := by
    cases h : s.notifications.find? (fun m => m.id == id) with
    | none =>
        rw [markAsRead_of_none s id h]
        exact Nat.le_succ _
    | some n =>
        by_cases hr : n.read = true
        · rw [markAsRead_of_read s id n h hr]
          exact Nat.le_succ _
        · have hr' : n.read = false := by simpa using hr
          rw [markAsRead_of_unread s id n h hr']
          show s.unreadCount ≤ s.unreadCount - 1 + 1
          omega
  refine ⟨hidem, ?_, ?_, fun n h hr => markAsRead_of_read s id n h hr,
          fun h => markAsRead_of_none s id h⟩
  · rw [hidem]
    exact hle
  · rw [hidem]
    exact hge

/-- Witness for C9: the already-read no-op at a concrete store. -/
theorem C9_markAsRead_idempotent_witness :
    readOneState.notifications.find? (fun m => m.id == "a") = some readNotif
  ∧ readNotif.read = true
  ∧ markAsRead readOneState "a" = readOneState :=
  ⟨by decide, by decide,
   (C9_markAsRead_idempotent readOneState "a").2.2.2.1 readNotif (by decide) (by decide)⟩

set_option maxRecDepth 100000 in
/-- C1 fails on the code at the capacity boundary: after 101 admitted
additions the list was truncated to 100 unread records, but `unreadCount`
was incremented every time and reads 101. -/
theorem C1_unreadCount_diverges :
    c1Run.unreadCount = 101 ∧ countUnread c1Run = 100 := by
  constructor <;> decide

end SliverGui
